import Mathlib

/-!
Verification development for the SkyFrame job-orchestration core
(`backend/config.py`, `backend/storage.py`, `backend/database.py`,
`backend/enhance.py`).  The Python source is shallowly embedded: pure
helpers become Lean functions; the asynchronous execution unit
`_run_prediction` becomes a function from an environment (outcomes of
the external world: file existence, submission, wait, download) to the
list of observable events it performs (Job Store writes and external
calls); machine clock readings (`datetime.utcnow()`, ISO timestamps)
are passed in explicitly through the environment.
-/

namespace SkyFrame

/-- config.py `REPLICATE_MODELS`: model key → external model identifier. -/
def REPLICATE_MODELS : List (String × String) :=
  [("upscale", "lucataco/real-esrgan-video"),
   ("upscale_premium", "topazlabs/video-upscale")]

/-- config.py `DEFAULT_ENHANCE_MODEL`. -/
def DEFAULT_ENHANCE_MODEL : String := "upscale"

/-- config.py `DEFAULT_SCALE_FACTOR` (2x upscale). -/
def DEFAULT_SCALE_FACTOR : Nat := 2

/-- config.py `JOB_POLL_INTERVAL_SEC`. -/
def JOB_POLL_INTERVAL_SEC : Nat := 5

/-- config.py `JOB_MAX_WAIT_SEC` ("10 min timeout per job"). -/
def JOB_MAX_WAIT_SEC : Nat := 600

/-- Python `dict.get` on `REPLICATE_MODELS`. -/
def modelsGet (key : String) : Option String :=
  (REPLICATE_MODELS.find? (fun p => p.1 == key)).map (fun p => p.2)

/-- Python substring membership `pat in s`, on the character lists. -/
def listContains (s pat : List Char) : Bool :=
  (List.range (s.length + 1)).any (fun i => (s.drop i).take pat.length == pat)

/-- Python substring membership `pat in s` for strings. -/
def strContains (s pat : String) : Bool := listContains s.data pat.data

/-- Job lifecycle states (database `jobs.status`, §4.4 of the spec). -/
inductive JobStatus
  | pending
  | processing
  | completed
  | failed
  | canceled
deriving DecidableEq

/-- One character of storage.py key sanitisation:
`c if c.isalnum() or c in "._-" else "_"`.  Python's `str.isalnum` is
Unicode-aware (a table that is not part of this repository), so it is
passed in as an opaque classifier `isalnum`; on ASCII characters it
coincides with `Char.isAlphanum`, which the concrete witnesses use. -/
def sanitizeChar (isalnum : Char → Bool) (c : Char) : Char :=
  if isalnum c = true ∨ c = '.' ∨ c = '_' ∨ c = '-' then c else '_'

/-- storage.py filename sanitisation (the `safe = ...` comprehension),
parameterised by the `isalnum` classifier like `sanitizeChar`. -/
def sanitize (isalnum : Char → Bool) (s : String) : String :=
  String.mk (s.data.map (sanitizeChar isalnum))

/-- Python `f"{n:02d}"` for the month/day fields. -/
def pad2 (n : Nat) : String := if n < 10 then "0" ++ toString n else toString n

/-- The current UTC date as read by `datetime.utcnow()` inside
`generate_output_key`; passed explicitly in the embedding. -/
structure UtcDate where
  year : Nat
  month : Nat
  day : Nat
deriving DecidableEq

/-- The `outputs/{year}/{month:02d}/{day:02d}/` part of an output key. -/
def outputDatePrefix (now : UtcDate) : String :=
  "outputs/" ++ toString now.year ++ "/" ++ pad2 now.month ++ "/"
    ++ pad2 now.day ++ "/"

/-- storage.py `generate_output_key(job_id, filename)`; `now` is the
`datetime.utcnow()` reading the source takes internally, and `isalnum`
is Python's `str.isalnum` passed opaquely (see `sanitizeChar`). -/
def generate_output_key (isalnum : Char → Bool) (now : UtcDate)
    (job_id : String) (filename : String) : String :=
  outputDatePrefix now ++ job_id ++ "_" ++ sanitize isalnum filename

/-- An item of a list-shaped Replicate output: a URL string, an object
with a `url` attribute, or anything else (no `url`, not a string). -/
inductive RepItem
  | str (s : String)
  | withUrl (url : String)
  | other
deriving DecidableEq

/-- A value of a dict-shaped Replicate output, split by `hasattr(val, "url")`:
`plain s` stands for any value whose `str()` rendering is `s`
(for a string value, `str` is the identity). -/
inductive DictVal
  | withUrl (url : String)
  | plain (s : String)
deriving DecidableEq

/-- The shapes `_extract_output_url` discriminates on: `None`, a plain
string, an object with a `url` attribute, a list/tuple, or a dict. -/
inductive ReplicateOutput
  | noneOut
  | str (s : String)
  | withUrl (url : String)
  | listOut (items : List RepItem)
  | dictOut (entries : List (String × DictVal))
deriving DecidableEq

/-- The list loop of `_extract_output_url`: return the first item that is
a string or has a `url` attribute. -/
def firstUrlItem : List RepItem → Option String
  | [] => none
  | RepItem.str s :: _ => some s
  | RepItem.withUrl u :: _ => some u
  | RepItem.other :: rest => firstUrlItem rest

/-- The fixed, ordered key list of the dict branch of `_extract_output_url`. -/
def knownOutputKeys : List String := ["video", "output", "enhanced_video", "result"]

/-- Python dict membership/lookup (first matching entry). -/
def lookupEntry : List (String × DictVal) → String → Option DictVal
  | [], _ => none
  | (k, v) :: rest, key => if k = key then some v else lookupEntry rest key

/-- `val.url if hasattr(val, "url") else str(val)`. -/
def dictValUrl : DictVal → String
  | DictVal.withUrl u => u
  | DictVal.plain s => s

/-- The dict loop of `_extract_output_url`: for each known key in order,
if present return its value rendered as a URL. -/
def dictExtract : List String → List (String × DictVal) → Option String
  | [], _ => none
  | k :: ks, entries =>
    match lookupEntry entries k with
    | some v => some (dictValUrl v)
    | none => dictExtract ks entries

/-- enhance.py `_extract_output_url`. -/
def extract_output_url : ReplicateOutput → Option String
  | ReplicateOutput.noneOut => none
  | ReplicateOutput.str s => some s
  | ReplicateOutput.withUrl u => some u
  | ReplicateOutput.listOut items => firstUrlItem items
  | ReplicateOutput.dictOut entries => dictExtract knownOutputKeys entries

/-- The input dict shape built by `_submit_prediction`. -/
inductive SubmitInput
  | videoPathScale (video_path : String) (scale : Nat)
  | videoOnly (video : String)
deriving DecidableEq

/-- enhance.py `_submit_prediction`, restricted to the input shape it
sends: branches on substring membership in the model name. -/
def submit_prediction_input (model_name : String) (file_path : String) :
    SubmitInput :=
  if strContains model_name "real-esrgan" then
    SubmitInput.videoPathScale file_path DEFAULT_SCALE_FACTOR
  else if strContains model_name "topazlabs" then
    SubmitInput.videoOnly file_path
  else
    SubmitInput.videoOnly file_path

/-- Terminal status of an external prediction, with the service-reported
error text on `failed`. -/
inductive PredStatus
  | succeeded
  | failed (error : String)
  | canceled
deriving DecidableEq

/-- An external prediction run: how many seconds it takes to reach its
terminal state, and which terminal state that is. -/
structure PredictionRun where
  seconds_to_terminal : Nat
  terminal : PredStatus
deriving DecidableEq

/-- Outcome of waiting on a prediction: its terminal status, or a
timeout error raised by the waiting code itself. -/
inductive WaitOutcome
  | terminal (s : PredStatus)
  | timeoutErr
deriving DecidableEq

/-- enhance.py `_wait_for_prediction`: calls `prediction.wait()` with no
timeout argument, so it blocks until the terminal state however long the
run takes; no code path produces a timeout. -/
def wait_for_prediction (p : PredictionRun) : WaitOutcome :=
  WaitOutcome.terminal p.terminal

/-- An HTTP response as seen by `_download_output`: status code, sizes of
the streamed chunks delivered, and whether the connection is interrupted
mid-stream (after those chunks). -/
structure HttpResp where
  status_code : Nat
  chunk_sizes : List Nat
  interrupted : Bool
deriving DecidableEq

/-- Result of `_download_output`: byte total on success, or the raised
httpx error (status error from `raise_for_status`, or a transport error
from the interrupted stream). -/
inductive DownloadResult
  | ok (total : Nat)
  | httpStatusError (code : Nat)
  | transportError
deriving DecidableEq

/-- httpx success statuses (2xx), as used by `raise_for_status`. -/
def is_success_status (code : Nat) : Bool := decide (200 ≤ code ∧ code ≤ 299)

/-- enhance.py `_download_output`: raise for a non-success status, stream
chunks summing their lengths, fail if interrupted, else return the total
(even when it is 0). -/
def download_output (resp : HttpResp) : DownloadResult :=
  if is_success_status resp.status_code = false then
    DownloadResult.httpStatusError resp.status_code
  else if resp.interrupted then DownloadResult.transportError
  else DownloadResult.ok resp.chunk_sizes.sum

/-- An Upload record as read back by `db.get_upload` (the fields the
orchestrator touches). -/
structure Upload where
  id : String
  original_filename : String
  storage_key : String
  status : String
deriving DecidableEq

/-- A Job record as inserted by `create_enhance_job` (`db.insert_job`
persists exactly these five columns). -/
structure Job where
  id : String
  upload_id : String
  model_name : String
  status : JobStatus
  created_at : String
deriving DecidableEq

/-- The partial-field dict passed to `db.update_job`: every field the
execution unit ever writes, `none` meaning "not in this write". -/
structure JobUpdate where
  status : Option JobStatus := none
  started_at : Option String := none
  replicate_id : Option String := none
  output_key : Option String := none
  output_size : Option Nat := none
  progress : Option Nat := none
  completed_at : Option String := none
  error_message : Option String := none
deriving DecidableEq

/-- An observable action of the execution unit: a Job Store write, or an
invocation of the External Prediction Client (submit / wait) or of the
Result Fetcher (download). -/
inductive Event
  | update (u : JobUpdate)
  | submitCall
  | waitCall
  | downloadCall
deriving DecidableEq

/-- The `except` branch of `_run_prediction`: mark the Job failed with
the stringified exception. -/
def failUpdate (msg ts : String) : JobUpdate :=
  { status := some JobStatus.failed, error_message := some msg,
    completed_at := some ts }

/-- The first write of `_run_prediction`: `processing` plus `started_at`. -/
def procUpdate (ts : String) : JobUpdate :=
  { status := some JobStatus.processing, started_at := some ts }

/-- The `replicate_id` write issued right after submission. -/
def ridUpdate (rid : String) : JobUpdate := { replicate_id := some rid }

/-- The final write of a successful run: `completed`, `output_key`,
`output_size`, `progress = 100`, `completed_at`. -/
def completedUpdate (key : String) (total : Nat) (ts : String) : JobUpdate :=
  { status := some JobStatus.completed, output_key := some key,
    output_size := some total, progress := some 100,
    completed_at := some ts }

/-- Environment of one `_run_prediction` execution: every outcome the
outside world decides (file existence, submission result, wait result,
the prediction output shape, download result, clock readings). -/
structure RunEnv where
  source_exists : Bool
  submit : Except String String
  wait : Except String PredStatus
  output : ReplicateOutput
  download : Except String Nat
  started_ts : String
  completed_ts : String
  date : UtcDate
  isalnum : Char → Bool

/-- enhance.py `_run_prediction` as a trace of observable events.
Mirrors the source line by line: write `processing`/`started_at`; check
the source file; submit (persisting `replicate_id`); wait; fail on a
`failed`/`canceled` terminal status; extract the output URL (Python
`if not output_url` also treats the empty string as missing); generate
the output key; download; write the `completed` record.  Any raised
exception lands in the single `except` branch, `failUpdate`. -/
def run_prediction (job_id : String) (upload : Upload) (env : RunEnv) :
    List Event :=
  Event.update (procUpdate env.started_ts) ::
  (if env.source_exists = false then
    [Event.update (failUpdate "Source video not found in storage" env.completed_ts)]
  else
    Event.submitCall ::
    match env.submit with
    | Except.error e => [Event.update (failUpdate e env.completed_ts)]
    | Except.ok rid =>
      Event.update (ridUpdate rid) ::
      Event.waitCall ::
      match env.wait with
      | Except.error e => [Event.update (failUpdate e env.completed_ts)]
      | Except.ok (PredStatus.failed err) =>
        [Event.update (failUpdate ("Replicate prediction failed: " ++ err) env.completed_ts)]
      | Except.ok PredStatus.canceled =>
        [Event.update (failUpdate "Prediction was canceled" env.completed_ts)]
      | Except.ok PredStatus.succeeded =>
        match extract_output_url env.output with
        | none =>
          [Event.update (failUpdate "No output URL returned from Replicate" env.completed_ts)]
        | some url =>
          if url = "" then
            [Event.update (failUpdate "No output URL returned from Replicate" env.completed_ts)]
          else
            Event.downloadCall ::
            match env.download with
            | Except.error e => [Event.update (failUpdate e env.completed_ts)]
            | Except.ok total =>
              [Event.update
                (completedUpdate
                  (generate_output_key env.isalnum env.date job_id
                    ("enhanced_" ++ upload.original_filename))
                  total env.completed_ts)])

/-- The Job Store writes of a trace, in order. -/
def updatesOf : List Event → List JobUpdate
  | [] => []
  | Event.update u :: es => u :: updatesOf es
  | _ :: es => updatesOf es

/-- The sequence of `status` values a trace writes, in order. -/
def statusWrites (es : List Event) : List JobStatus :=
  (updatesOf es).filterMap (fun u => u.status)

/-- The distinct synchronous errors `create_enhance_job` raises, one per
`raise EnhanceError(...)` site. -/
inductive CreateErr
  | uploadNotFound
  | uploadNotReady
  | tokenMissing
  | unknownModel (key : String)
deriving DecidableEq

/-- The `EnhanceError` message of each synchronous error (the dynamic
part of the unknown-model f-string rendered from `REPLICATE_MODELS`). -/
def CreateErr.message : CreateErr → String
  | CreateErr.uploadNotFound => "Upload not found"
  | CreateErr.uploadNotReady => "Upload is not ready for enhancement"
  | CreateErr.tokenMissing =>
      "REPLICATE_API_TOKEN not set. Export it to enable AI enhancement."
  | CreateErr.unknownModel k =>
      "Unknown model: " ++ k ++ ". Available: "
        ++ String.intercalate ", " (REPLICATE_MODELS.map (fun p => p.1))

/-- Environment of one `create_enhance_job` call: the Upload that
`db.get_upload(upload_id)` returns (or `none`), the configured
`REPLICATE_API_TOKEN`, and the generated job id / timestamp. -/
structure CreateEnv where
  upload_id : String
  upload : Option Upload
  api_token : String
  job_id : String
  now : String

deriving instance DecidableEq for Except

/-- What one `create_enhance_job` call does: its return value or raised
error, the Job records it inserts, and how many asynchronous execution
units it schedules via `asyncio.create_task`. -/
structure CreateResult where
  result : Except CreateErr Job
  inserted : List Job
  tasks_scheduled : Nat
deriving DecidableEq

/-- Python `model_key or config.DEFAULT_ENHANCE_MODEL` (both `None` and
the empty string are falsy). -/
def effective_model_key : Option String → String
  | none => DEFAULT_ENHANCE_MODEL
  | some k => if k = "" then DEFAULT_ENHANCE_MODEL else k

/-- enhance.py `create_enhance_job`: validate the Upload, the token and
the model key in order, raising synchronously with nothing inserted and
nothing scheduled on any violation; otherwise insert one `pending` Job,
schedule one execution unit, and return the Job record. -/
def create_enhance_job (env : CreateEnv) (model_key : Option String) :
    CreateResult :=
  match env.upload with
  | none => ⟨Except.error CreateErr.uploadNotFound, [], 0⟩
  | some up =>
    if up.status ≠ "uploaded" then ⟨Except.error CreateErr.uploadNotReady, [], 0⟩
    else if env.api_token = "" then ⟨Except.error CreateErr.tokenMissing, [], 0⟩
    else
      match modelsGet (effective_model_key model_key) with
      | none =>
        ⟨Except.error (CreateErr.unknownModel (effective_model_key model_key)), [], 0⟩
      | some model_name =>
        let job : Job :=
          ⟨env.job_id, env.upload_id, model_name, JobStatus.pending, env.now⟩
        ⟨Except.ok job, [job], 1⟩

/-! ## Helper lemmas -/

/-- Every complete `_run_prediction` trace performs one of exactly three
write sequences: processing-then-fail, processing/replicate-id/fail, or
processing/replicate-id/completed. -/
theorem run_updates_cases (jid : String) (up : Upload) (env : RunEnv) :
    (∃ m, updatesOf (run_prediction jid up env)
        = [procUpdate env.started_ts, failUpdate m env.completed_ts])
  ∨ (∃ rid m, updatesOf (run_prediction jid up env)
        = [procUpdate env.started_ts, ridUpdate rid, failUpdate m env.completed_ts])
  ∨ (∃ rid total, updatesOf (run_prediction jid up env)
        = [procUpdate env.started_ts, ridUpdate rid,
           completedUpdate (generate_output_key env.isalnum env.date jid
             ("enhanced_" ++ up.original_filename)) total env.completed_ts]) := by
  rcases env with ⟨se, sub, wt, out, dl, t1, t2, d, al⟩
  cases se
  · exact Or.inl ⟨"Source video not found in storage", rfl⟩
  · cases sub with
    | error e => exact Or.inl ⟨e, rfl⟩
    | ok rid =>
      cases wt with
      | error e => exact Or.inr (Or.inl ⟨rid, e, rfl⟩)
      | ok st =>
        cases st with
        | failed err =>
          exact Or.inr (Or.inl ⟨rid, "Replicate prediction failed: " ++ err, rfl⟩)
        | canceled =>
          exact Or.inr (Or.inl ⟨rid, "Prediction was canceled", rfl⟩)
        | succeeded =>
          cases h : extract_output_url out with
          | none =>
            refine Or.inr (Or.inl ⟨rid, "No output URL returned from Replicate", ?_⟩)
            simp only [run_prediction, h]
            rfl
          | some url =>
            by_cases hu : url = ""
            · refine Or.inr (Or.inl ⟨rid, "No output URL returned from Replicate", ?_⟩)
              simp only [run_prediction, h, hu]
              rfl
            · cases dl with
              | error e =>
                refine Or.inr (Or.inl ⟨rid, e, ?_⟩)
                simp only [run_prediction, h, if_neg hu]
                rfl
              | ok total =>
                refine Or.inr (Or.inr ⟨rid, total, ?_⟩)
                simp only [run_prediction, h, if_neg hu]
                rfl

/-! ## Claim theorems -/

/-- C1: the execution unit's persisted `status` sequence for one Job is
always exactly `processing` followed by one terminal state (`completed`
or `failed`): it never moves backward and never reaches a terminal
state without first writing `processing`. -/
theorem status_forward_only (jid : String) (up : Upload) (env : RunEnv) :
    statusWrites (run_prediction jid up env)
        = [JobStatus.processing, JobStatus.completed]
    ∨ statusWrites (run_prediction jid up env)
        = [JobStatus.processing, JobStatus.failed] := by
  rcases run_updates_cases jid up env with ⟨m, h⟩ | ⟨rid, m, h⟩ | ⟨rid, total, h⟩
  · right
    simp [statusWrites, h, procUpdate, failUpdate]
  · right
    simp [statusWrites, h, procUpdate, ridUpdate, failUpdate]
  · left
    simp [statusWrites, h, procUpdate, ridUpdate, completedUpdate]

/-- C2: in every write the execution unit issues, `output_key` is set
iff the write sets `status = completed` (together with `output_size`,
`progress = 100`, `completed_at` and no `error_message`), and
`error_message` is set iff the write sets `status = failed` (together
with `completed_at` and no `output_key`). -/
theorem output_error_fields_iff (jid : String) (up : Upload) (env : RunEnv)
    (u : JobUpdate) (hu : u ∈ updatesOf (run_prediction jid up env)) :
    (u.output_key.isSome = true ↔ u.status = some JobStatus.completed)
    ∧ (u.error_message.isSome = true ↔ u.status = some JobStatus.failed)
    ∧ (u.status = some JobStatus.completed →
        u.output_size.isSome = true ∧ u.progress = some 100
          ∧ u.completed_at.isSome = true ∧ u.error_message = none)
    ∧ (u.status = some JobStatus.failed →
        u.completed_at.isSome = true ∧ u.output_key = none) := by
  rcases run_updates_cases jid up env with ⟨m, h⟩ | ⟨rid, m, h⟩ | ⟨rid, total, h⟩
  · rw [h] at hu
    simp only [List.mem_cons, List.mem_singleton, List.not_mem_nil, or_false] at hu
    rcases hu with rfl | rfl <;> simp [procUpdate, failUpdate]
  · rw [h] at hu
    simp only [List.mem_cons, List.mem_singleton, List.not_mem_nil, or_false] at hu
    rcases hu with rfl | rfl | rfl <;> simp [procUpdate, ridUpdate, failUpdate]
  · rw [h] at hu
    simp only [List.mem_cons, List.mem_singleton, List.not_mem_nil, or_false] at hu
    rcases hu with rfl | rfl | rfl <;>
      simp [procUpdate, ridUpdate, completedUpdate]

/-- Witness for C2 at a concrete successful run: the final write sets
`completed` together with `output_key`/`output_size`/`progress`, and
its fields satisfy the two iffs. -/
theorem output_error_fields_iff_witness :
    ((completedUpdate (generate_output_key Char.isAlphanum ⟨2026, 1, 2⟩ "j"
          ("enhanced_" ++ "clip.mp4")) 5 "t2").output_key.isSome = true
      ↔ (completedUpdate (generate_output_key Char.isAlphanum ⟨2026, 1, 2⟩ "j"
          ("enhanced_" ++ "clip.mp4")) 5 "t2").status = some JobStatus.completed)
    ∧ ((completedUpdate (generate_output_key Char.isAlphanum ⟨2026, 1, 2⟩ "j"
          ("enhanced_" ++ "clip.mp4")) 5 "t2").error_message.isSome = true
      ↔ (completedUpdate (generate_output_key Char.isAlphanum ⟨2026, 1, 2⟩ "j"
          ("enhanced_" ++ "clip.mp4")) 5 "t2").status = some JobStatus.failed)
    ∧ ((completedUpdate (generate_output_key Char.isAlphanum ⟨2026, 1, 2⟩ "j"
          ("enhanced_" ++ "clip.mp4")) 5 "t2").status = some JobStatus.completed →
        (completedUpdate (generate_output_key Char.isAlphanum ⟨2026, 1, 2⟩ "j"
          ("enhanced_" ++ "clip.mp4")) 5 "t2").output_size.isSome = true
        ∧ (completedUpdate (generate_output_key Char.isAlphanum ⟨2026, 1, 2⟩ "j"
          ("enhanced_" ++ "clip.mp4")) 5 "t2").progress = some 100
        ∧ (completedUpdate (generate_output_key Char.isAlphanum ⟨2026, 1, 2⟩ "j"
          ("enhanced_" ++ "clip.mp4")) 5 "t2").completed_at.isSome = true
        ∧ (completedUpdate (generate_output_key Char.isAlphanum ⟨2026, 1, 2⟩ "j"
          ("enhanced_" ++ "clip.mp4")) 5 "t2").error_message = none)
    ∧ ((completedUpdate (generate_output_key Char.isAlphanum ⟨2026, 1, 2⟩ "j"
          ("enhanced_" ++ "clip.mp4")) 5 "t2").status = some JobStatus.failed →
        (completedUpdate (generate_output_key Char.isAlphanum ⟨2026, 1, 2⟩ "j"
          ("enhanced_" ++ "clip.mp4")) 5 "t2").completed_at.isSome = true
        ∧ (completedUpdate (generate_output_key Char.isAlphanum ⟨2026, 1, 2⟩ "j"
          ("enhanced_" ++ "clip.mp4")) 5 "t2").output_key = none) :=
  output_error_fields_iff "j" ⟨"u", "clip.mp4", "k", "uploaded"⟩
    ⟨true, Except.ok "r1", Except.ok PredStatus.succeeded,
     ReplicateOutput.str "http://x/out.mp4", Except.ok 5, "t1", "t2", ⟨2026, 1, 2⟩, Char.isAlphanum⟩
    (completedUpdate (generate_output_key Char.isAlphanum ⟨2026, 1, 2⟩ "j"
      ("enhanced_" ++ "clip.mp4")) 5 "t2")
    (by decide)

/-- C8: when the source file is absent at execution start, the trace is
exactly the `processing` write followed by the `failed` write with the
source-missing message, and neither the External Prediction Client
(submit, wait) nor the Result Fetcher (download) is ever invoked. -/
theorem source_missing_no_external_calls (jid : String) (up : Upload)
    (env : RunEnv) (h : env.source_exists = false) :
    run_prediction jid up env
      = [Event.update (procUpdate env.started_ts),
         Event.update (failUpdate "Source video not found in storage" env.completed_ts)]
    ∧ Event.submitCall ∉ run_prediction jid up env
    ∧ Event.waitCall ∉ run_prediction jid up env
    ∧ Event.downloadCall ∉ run_prediction jid up env := by
  have h1 : run_prediction jid up env
      = [Event.update (procUpdate env.started_ts),
         Event.update (failUpdate "Source video not found in storage" env.completed_ts)] := by
    simp [run_prediction, h]
  refine ⟨h1, ?_, ?_, ?_⟩ <;> simp [h1]

/-- Witness for C8 at a concrete environment with the source missing. -/
theorem source_missing_no_external_calls_witness :
    run_prediction "j1" ⟨"u1", "clip.mp4", "key1", "uploaded"⟩
        ⟨false, Except.ok "r", Except.ok PredStatus.succeeded,
         ReplicateOutput.noneOut, Except.ok 0, "t1", "t2", ⟨2026, 1, 1⟩, Char.isAlphanum⟩
      = [Event.update (procUpdate "t1"),
         Event.update (failUpdate "Source video not found in storage" "t2")]
    ∧ Event.submitCall ∉ run_prediction "j1" ⟨"u1", "clip.mp4", "key1", "uploaded"⟩
        ⟨false, Except.ok "r", Except.ok PredStatus.succeeded,
         ReplicateOutput.noneOut, Except.ok 0, "t1", "t2", ⟨2026, 1, 1⟩, Char.isAlphanum⟩
    ∧ Event.waitCall ∉ run_prediction "j1" ⟨"u1", "clip.mp4", "key1", "uploaded"⟩
        ⟨false, Except.ok "r", Except.ok PredStatus.succeeded,
         ReplicateOutput.noneOut, Except.ok 0, "t1", "t2", ⟨2026, 1, 1⟩, Char.isAlphanum⟩
    ∧ Event.downloadCall ∉ run_prediction "j1" ⟨"u1", "clip.mp4", "key1", "uploaded"⟩
        ⟨false, Except.ok "r", Except.ok PredStatus.succeeded,
         ReplicateOutput.noneOut, Except.ok 0, "t1", "t2", ⟨2026, 1, 1⟩, Char.isAlphanum⟩ :=
  source_missing_no_external_calls "j1" ⟨"u1", "clip.mp4", "key1", "uploaded"⟩
    ⟨false, Except.ok "r", Except.ok PredStatus.succeeded,
     ReplicateOutput.noneOut, Except.ok 0, "t1", "t2", ⟨2026, 1, 1⟩, Char.isAlphanum⟩ rfl

/-- C3: `create_enhance_job` fails synchronously with a distinct error
(a distinct `CreateErr` constructor), inserting no Job and scheduling no
execution unit, when the Upload is missing, not `uploaded`, the
credential is unset, or the model key does not resolve; otherwise it
inserts exactly one `pending` Job, schedules exactly one execution unit,
and returns that Job record. -/
theorem create_enhance_job_spec (env : CreateEnv) (mk : Option String) :
    (env.upload = none →
      create_enhance_job env mk = ⟨Except.error CreateErr.uploadNotFound, [], 0⟩)
  ∧ (∀ up, env.upload = some up → up.status ≠ "uploaded" →
      create_enhance_job env mk = ⟨Except.error CreateErr.uploadNotReady, [], 0⟩)
  ∧ (∀ up, env.upload = some up → up.status = "uploaded" → env.api_token = "" →
      create_enhance_job env mk = ⟨Except.error CreateErr.tokenMissing, [], 0⟩)
  ∧ (∀ up, env.upload = some up → up.status = "uploaded" → env.api_token ≠ "" →
      modelsGet (effective_model_key mk) = none →
      create_enhance_job env mk
        = ⟨Except.error (CreateErr.unknownModel (effective_model_key mk)), [], 0⟩)
  ∧ (∀ up mn, env.upload = some up → up.status = "uploaded" → env.api_token ≠ "" →
      modelsGet (effective_model_key mk) = some mn →
      create_enhance_job env mk
        = ⟨Except.ok ⟨env.job_id, env.upload_id, mn, JobStatus.pending, env.now⟩,
           [⟨env.job_id, env.upload_id, mn, JobStatus.pending, env.now⟩], 1⟩) := by
  refine ⟨?_, ?_, ?_, ?_, ?_⟩
  · intro h
    simp [create_enhance_job, h]
  · intro up h hs
    simp [create_enhance_job, h, hs]
  · intro up h hs ht
    simp [create_enhance_job, h, hs, ht]
  · intro up h hs ht hm
    simp [create_enhance_job, h, hs, ht, hm]
  · intro up mn h hs ht hm
    simp [create_enhance_job, h, hs, ht, hm]

/-- Witness for C3: each precondition violation at a concrete call, and
one concrete successful call. -/
theorem create_enhance_job_spec_witness :
    create_enhance_job ⟨"u1", none, "tok", "j1", "t0"⟩ none
      = ⟨Except.error CreateErr.uploadNotFound, [], 0⟩
  ∧ create_enhance_job
      ⟨"u1", some ⟨"u1", "a.mp4", "k1", "uploading"⟩, "tok", "j1", "t0"⟩ none
      = ⟨Except.error CreateErr.uploadNotReady, [], 0⟩
  ∧ create_enhance_job
      ⟨"u1", some ⟨"u1", "a.mp4", "k1", "uploaded"⟩, "", "j1", "t0"⟩ none
      = ⟨Except.error CreateErr.tokenMissing, [], 0⟩
  ∧ create_enhance_job
      ⟨"u1", some ⟨"u1", "a.mp4", "k1", "uploaded"⟩, "tok", "j1", "t0"⟩ (some "bogus")
      = ⟨Except.error (CreateErr.unknownModel (effective_model_key (some "bogus"))), [], 0⟩
  ∧ create_enhance_job
      ⟨"u1", some ⟨"u1", "a.mp4", "k1", "uploaded"⟩, "tok", "j1", "t0"⟩
      (some "upscale_premium")
      = ⟨Except.ok ⟨"j1", "u1", "topazlabs/video-upscale", JobStatus.pending, "t0"⟩,
         [⟨"j1", "u1", "topazlabs/video-upscale", JobStatus.pending, "t0"⟩], 1⟩ :=
  ⟨(create_enhance_job_spec ⟨"u1", none, "tok", "j1", "t0"⟩ none).1 rfl,
   (create_enhance_job_spec
      ⟨"u1", some ⟨"u1", "a.mp4", "k1", "uploading"⟩, "tok", "j1", "t0"⟩ none).2.1
      ⟨"u1", "a.mp4", "k1", "uploading"⟩ rfl (by decide),
   (create_enhance_job_spec
      ⟨"u1", some ⟨"u1", "a.mp4", "k1", "uploaded"⟩, "", "j1", "t0"⟩ none).2.2.1
      ⟨"u1", "a.mp4", "k1", "uploaded"⟩ rfl rfl rfl,
   (create_enhance_job_spec
      ⟨"u1", some ⟨"u1", "a.mp4", "k1", "uploaded"⟩, "tok", "j1", "t0"⟩
      (some "bogus")).2.2.2.1
      ⟨"u1", "a.mp4", "k1", "uploaded"⟩ rfl rfl (by decide) (by decide),
   (create_enhance_job_spec
      ⟨"u1", some ⟨"u1", "a.mp4", "k1", "uploaded"⟩, "tok", "j1", "t0"⟩
      (some "upscale_premium")).2.2.2.2
      ⟨"u1", "a.mp4", "k1", "uploaded"⟩ "topazlabs/video-upscale" rfl rfl
      (by decide) (by decide)⟩

/-- C10: with the model key omitted, an existing `uploaded` Upload and a
configured credential, `create_enhance_job` succeeds (no unknown-model
error) and the created Job's `model_name` is the registry image of the
default model key: `upscale` → `lucataco/real-esrgan-video`. -/
theorem default_model_key_resolves (env : CreateEnv) (up : Upload)
    (h1 : env.upload = some up) (h2 : up.status = "uploaded")
    (h3 : env.api_token ≠ "") :
    modelsGet DEFAULT_ENHANCE_MODEL = some "lucataco/real-esrgan-video"
    ∧ create_enhance_job env none
        = ⟨Except.ok ⟨env.job_id, env.upload_id, "lucataco/real-esrgan-video",
             JobStatus.pending, env.now⟩,
           [⟨env.job_id, env.upload_id, "lucataco/real-esrgan-video",
             JobStatus.pending, env.now⟩], 1⟩ := by
  refine ⟨by decide, ?_⟩
  simp [create_enhance_job, h1, h2, h3, effective_model_key, modelsGet,
    DEFAULT_ENHANCE_MODEL, REPLICATE_MODELS]

/-- Witness for C10 at a concrete environment. -/
theorem default_model_key_resolves_witness :
    modelsGet DEFAULT_ENHANCE_MODEL = some "lucataco/real-esrgan-video"
    ∧ create_enhance_job
        ⟨"u7", some ⟨"u7", "b.mov", "k7", "uploaded"⟩, "tok", "j7", "t7"⟩ none
        = ⟨Except.ok ⟨"j7", "u7", "lucataco/real-esrgan-video",
             JobStatus.pending, "t7"⟩,
           [⟨"j7", "u7", "lucataco/real-esrgan-video",
             JobStatus.pending, "t7"⟩], 1⟩ :=
  default_model_key_resolves
    ⟨"u7", some ⟨"u7", "b.mov", "k7", "uploaded"⟩, "tok", "j7", "t7"⟩
    ⟨"u7", "b.mov", "k7", "uploaded"⟩ rfl rfl (by decide)

/-- The list loop skips a prefix of items that are neither strings nor
URL-bearing. -/
theorem firstUrlItem_append_other (pre : List RepItem)
    (h : ∀ i ∈ pre, i = RepItem.other) (rest : List RepItem) :
    firstUrlItem (pre ++ rest) = firstUrlItem rest := by
  induction pre with
  | nil => rfl
  | cons a as ih =>
    have ha : a = RepItem.other := h a (by simp)
    subst ha
    exact ih (fun i hi => h i (by simp [hi]))

/-- Dict lookup misses when no entry has the key. -/
theorem lookupEntry_none (entries : List (String × DictVal)) (k : String)
    (h : ∀ p ∈ entries, p.1 ≠ k) : lookupEntry entries k = none := by
  induction entries with
  | nil => rfl
  | cons e es ih =>
    have he : e.1 ≠ k := h e (by simp)
    simp only [lookupEntry]
    rw [if_neg he]
    exact ih (fun p hp => h p (by simp [hp]))

/-- The dict loop falls through to `none` when no known key occurs among
the entries. -/
theorem dictExtract_none (ks : List String) (entries : List (String × DictVal))
    (h : ∀ p ∈ entries, p.1 ∉ ks) : dictExtract ks entries = none := by
  induction ks with
  | nil => rfl
  | cons k ks ih =>
    simp only [dictExtract]
    rw [lookupEntry_none entries k (fun p hp hk => h p hp (by simp [hk]))]
    exact ih (fun p hp hk => h p hp (by simp [hk]))

/-- C4: output-URL extraction returns the same URL `u` for all four
tolerated shapes — a plain string, a URL-bearing object, a list whose
first URL-bearing element is the string `u`, and a single-entry mapping
from a known key to `u` — and returns the distinct `none` ("no usable
output") outcome for `None`, for a list with no URL-bearing element, and
for a mapping with no known key. -/
theorem extract_output_url_shapes (u : String) :
    extract_output_url (ReplicateOutput.str u) = some u
  ∧ extract_output_url (ReplicateOutput.withUrl u) = some u
  ∧ (∀ pre post, (∀ i ∈ pre, i = RepItem.other) →
      extract_output_url
        (ReplicateOutput.listOut (pre ++ RepItem.str u :: post)) = some u)
  ∧ (∀ k, k ∈ knownOutputKeys →
      extract_output_url
        (ReplicateOutput.dictOut [(k, DictVal.plain u)]) = some u)
  ∧ extract_output_url ReplicateOutput.noneOut = none
  ∧ (∀ items, (∀ i ∈ items, i = RepItem.other) →
      extract_output_url (ReplicateOutput.listOut items) = none)
  ∧ (∀ entries, (∀ p ∈ entries, p.1 ∉ knownOutputKeys) →
      extract_output_url (ReplicateOutput.dictOut entries) = none) := by
  refine ⟨rfl, rfl, ?_, ?_, rfl, ?_, ?_⟩
  · intro pre post h
    show firstUrlItem (pre ++ RepItem.str u :: post) = some u
    rw [firstUrlItem_append_other pre h]
    rfl
  · intro k hk
    simp only [knownOutputKeys, List.mem_cons, List.mem_singleton,
      List.not_mem_nil, or_false] at hk
    rcases hk with rfl | rfl | rfl | rfl <;> rfl
  · intro items h
    show firstUrlItem items = none
    have := firstUrlItem_append_other items h []
    simpa using this
  · intro entries h
    exact dictExtract_none knownOutputKeys entries h

/-- Witness for C4: concrete instances of the list and dict shapes
(success with the same URL, and the distinct no-usable-output outcome). -/
theorem extract_output_url_shapes_witness :
    extract_output_url (ReplicateOutput.listOut
        [RepItem.other, RepItem.str "http://o/v.mp4", RepItem.other])
      = some "http://o/v.mp4"
  ∧ extract_output_url (ReplicateOutput.dictOut
        [("enhanced_video", DictVal.plain "http://o/v.mp4")])
      = some "http://o/v.mp4"
  ∧ extract_output_url (ReplicateOutput.listOut [RepItem.other, RepItem.other])
      = none
  ∧ extract_output_url (ReplicateOutput.dictOut [("nope", DictVal.plain "x")])
      = none :=
  ⟨(extract_output_url_shapes "http://o/v.mp4").2.2.1
      [RepItem.other] [RepItem.other] (by decide),
   (extract_output_url_shapes "http://o/v.mp4").2.2.2.1
      "enhanced_video" (by decide),
   (extract_output_url_shapes "http://o/v.mp4").2.2.2.2.2.1
      [RepItem.other, RepItem.other] (by decide),
   (extract_output_url_shapes "x").2.2.2.2.2.2
      [("nope", DictVal.plain "x")] (by decide)⟩

/-- C9: the submission input shape is decided by substring match on the
model name — any name containing `real-esrgan` gets
`(video_path, scale = DEFAULT_SCALE_FACTOR)`, and every other name
(`topazlabs` names and unknown names alike) gets the single-field
`(video)` shape. -/
theorem submit_input_shape (model_name file_path : String) :
    (strContains model_name "real-esrgan" = true →
      submit_prediction_input model_name file_path
        = SubmitInput.videoPathScale file_path DEFAULT_SCALE_FACTOR)
  ∧ (strContains model_name "real-esrgan" = false →
      submit_prediction_input model_name file_path
        = SubmitInput.videoOnly file_path) := by
  constructor
  · intro h
    simp [submit_prediction_input, h]
  · intro h
    simp only [submit_prediction_input, h, Bool.false_eq_true, if_false]
    split <;> rfl

/-- Witness for C9 at the two shipped model names and an unknown name. -/
theorem submit_input_shape_witness :
    submit_prediction_input "lucataco/real-esrgan-video" "/tmp/v.mp4"
      = SubmitInput.videoPathScale "/tmp/v.mp4" DEFAULT_SCALE_FACTOR
  ∧ submit_prediction_input "topazlabs/video-upscale" "/tmp/v.mp4"
      = SubmitInput.videoOnly "/tmp/v.mp4"
  ∧ submit_prediction_input "mystery/model" "/tmp/v.mp4"
      = SubmitInput.videoOnly "/tmp/v.mp4" :=
  ⟨(submit_input_shape "lucataco/real-esrgan-video" "/tmp/v.mp4").1 (by decide),
   (submit_input_shape "topazlabs/video-upscale" "/tmp/v.mp4").2 (by decide),
   (submit_input_shape "mystery/model" "/tmp/v.mp4").2 (by decide)⟩

/-- C5: the waiting code calls `prediction.wait()` with no timeout, so
every wait returns the prediction's terminal status — in particular a
run that takes longer than `JOB_MAX_WAIT_SEC` (which the source defines
as 600 but never reads) still ends in a terminal result and never in a
timeout error. -/
theorem wait_ignores_max_wait :
    JOB_MAX_WAIT_SEC = 600
    ∧ (∀ p : PredictionRun, wait_for_prediction p = WaitOutcome.terminal p.terminal)
    ∧ wait_for_prediction ⟨JOB_MAX_WAIT_SEC + 1, PredStatus.succeeded⟩
        = WaitOutcome.terminal PredStatus.succeeded :=
  ⟨rfl, fun _ => rfl, rfl⟩

/-- C6 counterexample: a 2xx response whose stream completes having
delivered zero bytes is not an error — `_download_output` returns 0 and
the execution unit marks the Job `completed` with `output_size = 0`. -/
theorem zero_byte_download_completes :
    download_output ⟨200, [], false⟩ = DownloadResult.ok 0
    ∧ run_prediction "j1" ⟨"u1", "clip.mp4", "k1", "uploaded"⟩
        ⟨true, Except.ok "r1", Except.ok PredStatus.succeeded,
         ReplicateOutput.str "http://x/out.mp4", Except.ok 0, "t1", "t2",
         ⟨2026, 1, 2⟩, Char.isAlphanum⟩
      = [Event.update (procUpdate "t1"), Event.submitCall,
         Event.update (ridUpdate "r1"), Event.waitCall, Event.downloadCall,
         Event.update (completedUpdate "outputs/2026/01/02/j1_enhanced_clip.mp4"
           0 "t2")] := by
  constructor
  · rfl
  · decide

/-- C6 amended: the Result Fetcher fails distinctly on a non-success
HTTP status and on a mid-stream interruption; a stream that completes
returns the byte total it wrote — including 0, which is not treated as
an error. -/
theorem download_output_spec (resp : HttpResp) :
    (is_success_status resp.status_code = false →
      download_output resp = DownloadResult.httpStatusError resp.status_code)
  ∧ (is_success_status resp.status_code = true → resp.interrupted = true →
      download_output resp = DownloadResult.transportError)
  ∧ (is_success_status resp.status_code = true → resp.interrupted = false →
      download_output resp = DownloadResult.ok resp.chunk_sizes.sum) := by
  refine ⟨?_, ?_, ?_⟩
  · intro h
    simp [download_output, h]
  · intro h hi
    simp [download_output, h, hi]
  · intro h hi
    simp [download_output, h, hi]

/-- Witness for C6 amended at concrete responses: a 404, an interrupted
stream, and a completed two-chunk stream. -/
theorem download_output_spec_witness :
    download_output ⟨404, [], false⟩ = DownloadResult.httpStatusError 404
  ∧ download_output ⟨200, [5], true⟩ = DownloadResult.transportError
  ∧ download_output ⟨200, [3, 4], false⟩ = DownloadResult.ok (([3, 4] : List Nat).sum) :=
  ⟨(download_output_spec ⟨404, [], false⟩).1 (by decide),
   (download_output_spec ⟨200, [5], true⟩).2.1 (by decide) rfl,
   (download_output_spec ⟨200, [3, 4], false⟩).2.2 (by decide) rfl⟩

/-- Substring search finds the middle component of a concatenation. -/
theorem listContains_append_middle (a b c : List Char) :
    listContains (a ++ b ++ c) b = true := by
  unfold listContains
  rw [List.any_eq_true]
  refine ⟨a.length, ?_, ?_⟩
  · rw [List.mem_range]
    simp only [List.length_append]
    omega
  · rw [List.append_assoc, List.drop_left, List.take_left]
    exact beq_self_eq_true b

/-- String-level version of `listContains_append_middle`. -/
theorem strContains_append_middle (a b c : String) :
    strContains (a ++ b ++ c) b = true := by
  unfold strContains
  rw [String.data_append, String.data_append]
  exact listContains_append_middle a.data b.data c.data

/-- Sanitisation distributes over concatenation, whatever the `isalnum`
classifier. -/
theorem sanitize_append (isalnum : Char → Bool) (a b : String) :
    sanitize isalnum (a ++ b) = sanitize isalnum a ++ sanitize isalnum b := by
  cases a with
  | mk la =>
    cases b with
    | mk lb =>
      show String.mk ((la ++ lb).map (sanitizeChar isalnum))
        = String.mk (la.map (sanitizeChar isalnum))
          ++ String.mk (lb.map (sanitizeChar isalnum))
      rw [List.map_append]
      rfl

/-- A character the classifier accepts passes through sanitisation. -/
theorem sanitizeChar_keep (isalnum : Char → Bool) (c : Char)
    (h : isalnum c = true) : sanitizeChar isalnum c = c := by
  simp [sanitizeChar, h]

/-- Any classifier that accepts the ASCII letters of `enhanced` — as
Python's `str.isalnum` does — leaves the prefix `enhanced_` unchanged
(`_` is kept by the `"._-"` clause regardless of the classifier). -/
theorem sanitize_enhanced (isalnum : Char → Bool)
    (h : ∀ c ∈ ("enhanced" : String).data, isalnum c = true) :
    sanitize isalnum "enhanced_" = "enhanced_" := by
  have he := sanitizeChar_keep isalnum 'e' (h 'e' (by decide))
  have hn := sanitizeChar_keep isalnum 'n' (h 'n' (by decide))
  have hh := sanitizeChar_keep isalnum 'h' (h 'h' (by decide))
  have ha := sanitizeChar_keep isalnum 'a' (h 'a' (by decide))
  have hc := sanitizeChar_keep isalnum 'c' (h 'c' (by decide))
  have hd := sanitizeChar_keep isalnum 'd' (h 'd' (by decide))
  have hu : sanitizeChar isalnum '_' = '_' := by simp [sanitizeChar]
  show String.mk (("enhanced_" : String).data.map (sanitizeChar isalnum))
    = "enhanced_"
  have hdata : ("enhanced_" : String).data
      = ['e', 'n', 'h', 'a', 'n', 'c', 'e', 'd', '_'] := rfl
  rw [hdata]
  simp only [List.map, he, hn, hh, ha, hc, hd, hu]

/-- C7 counterexample: with the same `(job_id, filename)` arguments the
key differs across two `utcnow` dates (so it is not a function of those
arguments alone), and for a filename containing a space the key does not
contain `enhanced_` followed by the original filename (the space is
sanitised to an underscore).  The inputs are all ASCII, where the ASCII
classifier `Char.isAlphanum` coincides with Python's `str.isalnum`. -/
theorem generate_output_key_counterexample :
    generate_output_key Char.isAlphanum ⟨2026, 10, 12⟩ "job_abc"
        "enhanced_my clip.mp4"
      ≠ generate_output_key Char.isAlphanum ⟨2026, 10, 13⟩ "job_abc"
        "enhanced_my clip.mp4"
    ∧ strContains
        (generate_output_key Char.isAlphanum ⟨2026, 10, 12⟩ "job_abc"
          "enhanced_my clip.mp4")
        ("enhanced_" ++ "my clip.mp4") = false := by
  constructor
  · decide
  · decide

/-- C7 amended: `generate_output_key` is deterministic in
`(utcnow date, job_id, filename)` given the `isalnum` classifier; for
every classifier accepting the ASCII letters of `enhanced` (true of
Python's `str.isalnum`) and the argument the execution unit passes
(`enhanced_` prefixed to the Upload's original filename), the key equals
a date-derived prefix followed by the Job id, an underscore, and
`enhanced_` followed by the sanitised original filename — hence it
contains the Job id and `enhanced_<sanitised filename>`. -/
theorem generate_output_key_shape (isalnum : Char → Bool) (d : UtcDate)
    (jid fn : String)
    (h : ∀ c ∈ ("enhanced" : String).data, isalnum c = true) :
    generate_output_key isalnum d jid ("enhanced_" ++ fn)
      = outputDatePrefix d ++ jid ++ "_" ++ ("enhanced_" ++ sanitize isalnum fn)
    ∧ strContains (generate_output_key isalnum d jid ("enhanced_" ++ fn))
        jid = true
    ∧ strContains (generate_output_key isalnum d jid ("enhanced_" ++ fn))
        ("enhanced_" ++ sanitize isalnum fn) = true := by
  have hsan : sanitize isalnum ("enhanced_" ++ fn)
      = "enhanced_" ++ sanitize isalnum fn := by
    rw [sanitize_append, sanitize_enhanced isalnum h]
  have hkey : generate_output_key isalnum d jid ("enhanced_" ++ fn)
      = outputDatePrefix d ++ jid ++ "_" ++ ("enhanced_" ++ sanitize isalnum fn) := by
    unfold generate_output_key
    rw [hsan]
  refine ⟨hkey, ?_, ?_⟩
  · rw [hkey]
    rw [show outputDatePrefix d ++ jid ++ "_" ++ ("enhanced_" ++ sanitize isalnum fn)
        = outputDatePrefix d ++ jid ++ ("_" ++ ("enhanced_" ++ sanitize isalnum fn)) from by
      rw [String.append_assoc]]
    exact strContains_append_middle (outputDatePrefix d) jid
      ("_" ++ ("enhanced_" ++ sanitize isalnum fn))
  · rw [hkey]
    have := strContains_append_middle (outputDatePrefix d ++ jid ++ "_")
      ("enhanced_" ++ sanitize isalnum fn) ""
    rwa [String.append_empty] at this

/-- Witness for C7 amended: the ASCII classifier (which coincides with
Python's `str.isalnum` on these all-ASCII inputs), a concrete date, job
id and a filename containing a space. -/
theorem generate_output_key_shape_witness :
    generate_output_key Char.isAlphanum ⟨2026, 10, 12⟩ "job_abc"
        ("enhanced_" ++ "my clip.mp4")
      = outputDatePrefix ⟨2026, 10, 12⟩ ++ "job_abc" ++ "_"
        ++ ("enhanced_" ++ sanitize Char.isAlphanum "my clip.mp4")
    ∧ strContains (generate_output_key Char.isAlphanum ⟨2026, 10, 12⟩ "job_abc"
        ("enhanced_" ++ "my clip.mp4")) "job_abc" = true
    ∧ strContains (generate_output_key Char.isAlphanum ⟨2026, 10, 12⟩ "job_abc"
        ("enhanced_" ++ "my clip.mp4"))
        ("enhanced_" ++ sanitize Char.isAlphanum "my clip.mp4") = true :=
  generate_output_key_shape Char.isAlphanum ⟨2026, 10, 12⟩ "job_abc"
    "my clip.mp4" (by decide)

end SkyFrame
